import Mathlib

/-!
Verification of the request-processing core of the Pyro5 daemon
(`Pyro5/server.py`): object registry (`register` / `unregister` / `uriFor`),
instance management (`_getInstance`), the iterator-stream registry
(`_streamResponse`, `DaemonObject.get_next_stream_item`), the exposed-member
reflection layer (`is_private_attribute`, `get_exposed_members`,
`set_exposed_property_value`) and the batch dispatch path of
`Daemon.handleRequest`.

The Python code is shallowly embedded: Python dicts become association lists
with replace-on-insert and remove-all-on-delete semantics (a dict is a
finitely supported map, so an association list kept key-unique by these
operations is a faithful implementation), mutation becomes explicit state
passing, and raising becomes `Except`.  Exception classes are modelled as
constructors of one inductive type; distinct constructors correspond to
exception classes neither of which is a subclass of the other.
-/

set_option autoImplicit false

namespace Pyro5

/-! ## Association-list helpers (Python dict operations) -/

/-- Lookup of a key in an association list, mirroring `d.get(k)` /
`k in d` on a Python dict. -/
def alookup {α β : Type} [DecidableEq α] : List (α × β) → α → Option β
  | [], _ => none
  | (k, v) :: rest, key => if k = key then some v else alookup rest key

/-- Removal of a key, mirroring `del d[k]` on a Python dict. -/
def aerase {α β : Type} [DecidableEq α] : List (α × β) → α → List (α × β)
  | [], _ => []
  | (k, v) :: rest, key =>
      if k = key then aerase rest key else (k, v) :: aerase rest key

/-- Insertion that replaces an existing binding, mirroring `d[k] = v`. -/
def ainsert {α β : Type} [DecidableEq α] : List (α × β) → α → β → List (α × β)
  | [], key, val => [(key, val)]
  | (k, v) :: rest, key, val =>
      if k = key then (key, val) :: rest else (k, v) :: ainsert rest key val

theorem alookup_aerase_self {α β : Type} [DecidableEq α]
    (l : List (α × β)) (key : α) : alookup (aerase l key) key = none := by
  induction l with
  | nil => rfl
  | cons p rest ih =>
      obtain ⟨k, v⟩ := p
      by_cases h : k = key
      · simp [aerase, h, ih]
      · simp [aerase, alookup, h, ih]

theorem alookup_ainsert_self {α β : Type} [DecidableEq α]
    (l : List (α × β)) (key : α) (val : β) :
    alookup (ainsert l key val) key = some val := by
  induction l with
  | nil => simp [ainsert, alookup]
  | cons p rest ih =>
      obtain ⟨k, v⟩ := p
      by_cases h : k = key
      · simp [ainsert, h, alookup]
      · simp [ainsert, alookup, h, ih]

theorem alookup_ainsert_ne {α β : Type} [DecidableEq α]
    (l : List (α × β)) (key other : α) (val : β) (h : other ≠ key) :
    alookup (ainsert l key val) other = alookup l other := by
  induction l with
  | nil => simp [ainsert, alookup, Ne.symm h]
  | cons p rest ih =>
      obtain ⟨k, v⟩ := p
      by_cases hk : k = key
      · subst hk
        simp [ainsert, alookup, Ne.symm h]
      · simp [ainsert, alookup, hk, ih]

theorem alookup_aerase_ne {α β : Type} [DecidableEq α]
    (l : List (α × β)) (key other : α) (h : other ≠ key) :
    alookup (aerase l key) other = alookup l other := by
  induction l with
  | nil => rfl
  | cons p rest ih =>
      obtain ⟨k, v⟩ := p
      by_cases hk : k = key
      · subst hk
        simp [aerase, alookup, Ne.symm h, ih]
      · simp [aerase, alookup, hk, ih]

/-! ## Python values and exceptions -/

/-- Payload values moved through remote calls (opaque to the daemon core). -/
inductive PyVal : Type
  | pyNone
  | int (n : Int)
  | str (s : String)
  | bool (b : Bool)
  deriving DecidableEq, Repr

/-- Exception values.  Each constructor stands for one Python exception
class used by `server.py`; per the error-kind list of the specification
(`PyroError` catch-all, `ProtocolError`, `DaemonError`, ...), no constructor
is a subclass of a different constructor, so an exception built with one
constructor is not an instance of another. -/
inductive PyExc : Type
  | stopIteration
  | pyroError (msg : String)
  | protocolError (msg : String)
  | daemonError (msg : String)
  | serializationError (msg : String)
  | attributeError (msg : String)
  | typeError (msg : String)
  | valueError (msg : String)
  | zeroDivisionError (msg : String)
  deriving DecidableEq, Repr

end Pyro5

deriving instance DecidableEq for Except

namespace Pyro5

/-! ## Private-name classification (`is_private_attribute`, lines 35-55) -/

/-- The fixed deny-list `_private_dunder_methods` of `server.py`. -/
def privateDunderMethods : List String :=
  ["__init__", "__call__", "__new__", "__del__", "__repr__", "__unicode__",
   "__str__", "__format__", "__nonzero__", "__bool__", "__coerce__",
   "__cmp__", "__eq__", "__ne__", "__hash__",
   "__dir__", "__enter__", "__exit__", "__copy__", "__deepcopy__", "__sizeof__",
   "__getattr__", "__setattr__", "__hasattr__", "__getattribute__", "__delattr__",
   "__instancecheck__", "__subclasscheck__", "__getinitargs__", "__getnewargs__",
   "__getstate__", "__setstate__", "__reduce__", "__reduce_ex__",
   "__getstate_for_dict__", "__setstate_from_dict__", "__subclasshook__"]

/-- Python `s.startswith(p)`, computed on the character lists. -/
def strStartsWith (s p : String) : Bool :=
  List.isPrefixOf p.data s.data

/-- Python `s.endswith(p)`, computed on the character lists. -/
def strEndsWith (s p : String) : Bool :=
  List.isSuffixOf p.data s.data

/-- `is_private_attribute(attr_name)` of `server.py`: names in the dunder
deny-list are private; otherwise a name is private iff it starts with an
underscore and is not a double-underscore-delimited name longer than 4. -/
def is_private_attribute (a : String) : Bool :=
  if privateDunderMethods.contains a then true
  else if !(strStartsWith a "_") then false
  else if decide (a.length > 4) && strStartsWith a "__" && strEndsWith a "__" then false
  else true

/-- The claim's characterization of privacy: in the deny-list, or starting
with an underscore while not being a double-underscore-delimited name of
length greater than 4. -/
def claimPrivate (a : String) : Bool :=
  privateDunderMethods.contains a ||
    (strStartsWith a "_" &&
      !(decide (a.length > 4) && strStartsWith a "__" && strEndsWith a "__"))

theorem is_private_attribute_eq_claimPrivate (a : String) :
    is_private_attribute a = claimPrivate a := by
  unfold is_private_attribute claimPrivate
  cases h1 : privateDunderMethods.contains a <;>
    cases h2 : strStartsWith a "_" <;>
      cases h3 : decide (a.length > 4) && strStartsWith a "__" && strEndsWith a "__" <;>
        simp [h1, h2, h3]

/-! ## Object registry (`Daemon.register` / `unregister` / `uriFor`) -/

/-- The reserved object-id of the daemon's own introspection object
(`core.DAEMON_NAME`; the `core` module is outside `server.py`, the
specification reserves one id for the daemon's introspection object). -/
def DAEMON_NAME : String := "Pyro.Daemon"

/-- The Pyro attributes `server.py` stamps onto registered targets:
`_pyroId` (absent modelled as `none`) and `_pyroDaemon` (modelled as a
presence flag, since `unregister` only deletes it). -/
structure PyAttrs : Type where
  pyroId : Option String
  pyroDaemon : Bool
  deriving DecidableEq, Repr

/-- The mutable state `unregister` touches: `Daemon.objectsById` (object-id
to registered target, targets named by heap handles) and the attribute
state of every target object. -/
structure World : Type where
  registry : List (String × Nat)
  heap : List (Nat × PyAttrs)
  deriving DecidableEq, Repr

/-- Attribute record of the object at a heap handle; an object that never
received Pyro attributes has both of them absent. -/
def attrsOf (w : World) (h : Nat) : PyAttrs :=
  (alookup w.heap h).getD { pyroId := none, pyroDaemon := false }

/-- Argument of `Daemon.unregister`: Python `None`, an object-id string, or
a target object (by heap handle). -/
inductive UnregTarget : Type
  | pyNone
  | str (s : String)
  | obj (h : Nat)
  deriving DecidableEq, Repr

/-- `Daemon.unregister(objectOrId)` (lines 672-694): `None` raises
`ValueError`; a non-string argument is resolved through its `_pyroId`
attribute (absent raises `DaemonError`); the daemon's own id is silently
ignored; a registered id is removed, and when the argument was the object
itself its `_pyroId` / `_pyroDaemon` back-references are deleted. -/
def unregister (w : World) (t : UnregTarget) : Except PyExc World :=
  match t with
  | .pyNone => .error (.valueError "object or objectid argument expected")
  | .obj h =>
      match (attrsOf w h).pyroId with
      | none => .error (.daemonError "object isn\x27t registered")
      | some objectId =>
          if objectId = DAEMON_NAME then .ok w
          else if (alookup w.registry objectId).isSome then
            .ok { registry := aerase w.registry objectId,
                  heap := ainsert w.heap h { pyroId := none, pyroDaemon := false } }
          else .ok w
  | .str objectId =>
      if objectId = DAEMON_NAME then .ok w
      else if (alookup w.registry objectId).isSome then
        .ok { w with registry := aerase w.registry objectId }
      else .ok w

/-- Location data of the daemon used by `uriFor`: `locationStr` and the
optional `natLocationStr`. -/
structure DaemonLoc : Type where
  locationStr : String
  natLocationStr : Option String
  deriving DecidableEq, Repr

/-- `loc = self.natLocationStr or self.locationStr` when `nat` is true,
else `self.locationStr` (lines 710-713). -/
def locFor (d : DaemonLoc) (nat : Bool) : String :=
  if nat then d.natLocationStr.getD d.locationStr else d.locationStr

/-- Argument of `Daemon.uriFor`: an object-id string, or an object whose
`_pyroId` attribute may be absent. -/
inductive UriTarget : Type
  | str (s : String)
  | obj (pyroId : Option String)
  deriving DecidableEq, Repr

/-- `Daemon.uriFor(objectOrId, nat)` (lines 696-714).  A non-string object
is replaced by its `_pyroId`; if that is absent or not a key of
`objectsById`, `DaemonError` is raised.  The result is the rendering
`PYRO:<object-id>@<location>` (the `URI` constructor lives outside
`server.py`; modelled from the spec: a URI is rendered exactly as that
string). -/
def uriFor (d : DaemonLoc) (registry : List (String × Nat)) (t : UriTarget)
    (nat : Bool) : Except PyExc String :=
  match t with
  | .str s => .ok ("PYRO:" ++ s ++ "@" ++ locFor d nat)
  | .obj pid =>
      match pid with
      | none => .error (.daemonError "object isn\x27t registered in this daemon")
      | some i =>
          if (alookup registry i).isSome then
            .ok ("PYRO:" ++ i ++ "@" ++ locFor d nat)
          else .error (.daemonError "object isn\x27t registered in this daemon")

/-! ### Registry theorems (claims C2, C3, C10) -/

/-- A world holding one regular registration: id "a" maps to the object at
heap handle 0, which carries the matching back-references. -/
def regWorld : World :=
  { registry := [("a", 0)], heap := [(0, { pyroId := some "a", pyroDaemon := true })] }

/-- `regWorld` after `unregister` was called with the object itself:
the entry is gone and the back-references are scrubbed. -/
def scrubbedWorld : World :=
  { registry := [], heap := [(0, { pyroId := none, pyroDaemon := false })] }

/-- `regWorld` after `unregister` was called with the id string "a": the
entry is gone but the back-references survive on the former target. -/
def unscrubbedWorld : World :=
  { registry := [], heap := [(0, { pyroId := some "a", pyroDaemon := true })] }

/-- Claim C2 counterexample: calling `unregister` a second time with the
same target object is not a no-op — the first call scrubbed `_pyroId`, so
the second call raises `DaemonError`. -/
theorem unregister_obj_second_call_raises :
    unregister regWorld (.obj 0) = .ok scrubbedWorld ∧
    unregister scrubbedWorld (.obj 0) =
      .error (.daemonError "object isn\x27t registered") := by
  constructor <;> rfl

/-- Claim C2 (amended): a second `unregister` with the same object-id
string raises nothing and leaves the registry unchanged; a second
`unregister` with the same object, after a first call that removed a
regular (non-daemon) registration, raises `DaemonError` because the first
call scrubbed the object's `_pyroId`. -/
theorem unregister_second_call :
    (∀ (w w1 : World) (s : String), unregister w (.str s) = .ok w1 →
        unregister w1 (.str s) = .ok w1) ∧
    (∀ (w w1 : World) (h : Nat) (i : String),
        (attrsOf w h).pyroId = some i → i ≠ DAEMON_NAME →
        (alookup w.registry i).isSome → unregister w (.obj h) = .ok w1 →
        unregister w1 (.obj h) =
          .error (.daemonError "object isn\x27t registered")) := by
  constructor
  · intro w w1 s hw
    by_cases hd : s = DAEMON_NAME
    · simp [unregister, hd] at hw
      subst hw
      simp [unregister, hd]
    · by_cases hr : (alookup w.registry s).isSome
      · simp [unregister, hd, hr] at hw
        subst hw
        simp [unregister, hd, alookup_aerase_self]
      · simp [unregister, hd, hr] at hw
        subst hw
        simp [unregister, hd, hr]
  · intro w w1 h i hid hd hr hw
    simp [unregister, hid, hd, hr] at hw
    subst hw
    simp [unregister, attrsOf, alookup_ainsert_self]

/-- Claim C2 witness: the amended statement evaluated on `regWorld`:
a repeated string unregistration is a no-op, a repeated object
unregistration raises. -/
theorem unregister_second_call_witness :
    unregister unscrubbedWorld (.str "a") = .ok unscrubbedWorld ∧
    unregister scrubbedWorld (.obj 0) =
      .error (.daemonError "object isn\x27t registered") := by
  constructor
  · exact unregister_second_call.1 regWorld unscrubbedWorld "a" (by rfl)
  · exact unregister_second_call.2 regWorld scrubbedWorld 0 "a" (by rfl) (by decide)
      (by rfl) (by rfl)

/-- Claim C3 counterexample: unregistering by object-id string removes the
registry entry but leaves `_pyroId` and `_pyroDaemon` intact on the former
target object, so the reverse links are not scrubbed. -/
theorem unregister_by_id_keeps_backrefs :
    unregister regWorld (.str "a") = .ok unscrubbedWorld ∧
    (attrsOf unscrubbedWorld 0).pyroId = some "a" ∧
    (attrsOf unscrubbedWorld 0).pyroDaemon = true ∧
    alookup unscrubbedWorld.registry "a" = none := by
  refine ⟨rfl, rfl, rfl, rfl⟩

/-- Claim C3 (amended): for a registered non-daemon target, `unregister`
removes the object-id from the registry in both invocation styles, but it
scrubs the reverse links `_pyroId` and `_pyroDaemon` only when invoked
with the object itself; invoked with the object-id string, the
back-references remain on the former target. -/
theorem unregister_removal_and_scrub :
    (∀ (w : World) (h : Nat) (i : String),
        (attrsOf w h).pyroId = some i → i ≠ DAEMON_NAME →
        (alookup w.registry i).isSome →
        unregister w (.obj h) =
          .ok { registry := aerase w.registry i,
                heap := ainsert w.heap h { pyroId := none, pyroDaemon := false } }) ∧
    (∀ (w : World) (i : String), i ≠ DAEMON_NAME →
        (alookup w.registry i).isSome →
        unregister w (.str i) = .ok { w with registry := aerase w.registry i }) := by
  constructor
  · intro w h i hid hd hr
    simp [unregister, hid, hd, hr]
  · intro w i hd hr
    simp [unregister, hd, hr]

/-- Claim C3 witness: the amended statement evaluated on `regWorld` for
both invocation styles. -/
theorem unregister_removal_and_scrub_witness :
    unregister regWorld (.obj 0) = .ok scrubbedWorld ∧
    unregister regWorld (.str "a") = .ok unscrubbedWorld := by
  constructor
  · exact unregister_removal_and_scrub.1 regWorld 0 "a" (by rfl) (by decide) (by rfl)
  · exact unregister_removal_and_scrub.2 regWorld "a" (by decide) (by rfl)

/-- Claim C10: `uriFor` raises `DaemonError` exactly when given a
non-string object that lacks a `_pyroId` or whose id is not a registry
key; any string argument, registered or not, yields the URI string
`PYRO:<id>@<location>` without raising; a registered object yields the
same URI string for its id. -/
theorem uriFor_spec (d : DaemonLoc) (registry : List (String × Nat)) :
    (∀ t : UriTarget,
        (∃ m, uriFor d registry t true = .error (.daemonError m)) ↔
          (match t with
           | .str _ => False
           | .obj none => True
           | .obj (some i) => alookup registry i = none)) ∧
    (∀ s : String, uriFor d registry (.str s) true =
        .ok ("PYRO:" ++ s ++ "@" ++ locFor d true)) ∧
    (∀ i : String, (alookup registry i).isSome →
        uriFor d registry (.obj (some i)) true =
          .ok ("PYRO:" ++ i ++ "@" ++ locFor d true)) := by
  refine ⟨?_, ?_, ?_⟩
  · intro t
    cases t with
    | str s => simp [uriFor]
    | obj pid =>
        cases pid with
        | none => simp [uriFor]
        | some i =>
            cases hl : alookup registry i with
            | none => simp [uriFor, hl]
            | some v => simp [uriFor, hl]
  · intro s
    rfl
  · intro i hr
    simp [uriFor, hr]

/-- Claim C10 witness: a registered object resolves to its URI string on a
concrete daemon location and registry. -/
theorem uriFor_spec_witness :
    uriFor { locationStr := "h:1", natLocationStr := none } [("a", 0)]
        (.obj (some "a")) true =
      .ok ("PYRO:" ++ "a" ++ "@" ++
        locFor { locationStr := "h:1", natLocationStr := none } true) :=
  (uriFor_spec { locationStr := "h:1", natLocationStr := none } [("a", 0)]).2.2
    "a" (by rfl)

/-! ## Stream registry (`Daemon._streamResponse`,
`DaemonObject.get_next_stream_item`) -/

/-- A server-side iterator.  `items` is the sequence of outcomes of the
successive `next(stream)` calls still ahead (`.ok` an item, `.error` an
exception raised by the iterator); an empty list means the next call
raises `StopIteration`.  `isLazyDictIter` models
`type(data) in __lazy_dict_iterator_types`. -/
structure PyIter : Type where
  isLazyDictIter : Bool
  items : List (Except PyExc PyVal)
  deriving DecidableEq

/-- The dispatch result handed to `_streamResponse`: either a value that
satisfies `isinstance(data, collections.Iterator) or
inspect.isgenerator(data)`, or a plain value. -/
inductive CallResult : Type
  | iter (it : PyIter)
  | plain (v : PyVal)
  deriving DecidableEq

/-- One entry of `Daemon.streaming_responses`:
`(client, creation_timestamp, linger_timestamp, stream)`. -/
structure StreamEntry : Type where
  client : Option Nat
  timestamp : Nat
  linger : Nat
  stream : PyIter
  deriving DecidableEq

/-- What `_streamResponse` returns as its second component: a stream-id
(or `None` when streaming is disabled), or the unchanged plain value. -/
inductive StreamDecision : Type
  | stream (sid : Option String)
  | value (v : PyVal)
  deriving DecidableEq

/-- `Daemon._streamResponse(data, client)` (lines 805-814).  The fresh
`str(uuid.uuid4())` is passed in as `freshId` and `time.time()` as `now`;
the updated `streaming_responses` map is returned alongside the
`(isStream, data)` pair of the source. -/
def streamResponse (iterStreaming : Bool) (streams : List (String × StreamEntry))
    (data : CallResult) (client : Nat) (freshId : String) (now : Nat) :
    Except PyExc (StreamDecision × List (String × StreamEntry)) :=
  match data with
  | .iter it =>
      if iterStreaming then
        if it.isLazyDictIter then
          .error (.pyroError
            "won\x27t serialize or stream lazy dict iterators, convert to list yourself")
        else
          .ok (.stream (some freshId),
            ainsert streams freshId
              { client := some client, timestamp := now, linger := 0, stream := it })
      else .ok (.stream none, streams)
  | .plain v => .ok (.value v, streams)

/-- `DaemonObject.get_next_stream_item(streamId)` (lines 175-186); the
calling connection (`core.current_context.client`) is passed as `caller`,
and the updated `streaming_responses` map is returned with the outcome. -/
def get_next_stream_item (streams : List (String × StreamEntry)) (caller : Nat)
    (streamId : String) : Except PyExc PyVal × List (String × StreamEntry) :=
  match alookup streams streamId with
  | none => (.error (.pyroError "item stream terminated"), streams)
  | some entry =>
      let entry1 := if entry.client = none
        then { entry with client := some caller, linger := 0 }
        else entry
      let streams1 := if entry.client = none
        then ainsert streams streamId entry1
        else streams
      match entry1.stream.items with
      | [] => (.error .stopIteration, aerase streams1 streamId)
      | .error e :: _ => (.error e, aerase streams1 streamId)
      | .ok v :: rest =>
          (.ok v, ainsert streams1 streamId
            { entry1 with stream := { entry1.stream with items := rest } })

theorem aerase_ainsert {α β : Type} [DecidableEq α]
    (l : List (α × β)) (key : α) (val : β) :
    aerase (ainsert l key val) key = aerase l key := by
  induction l with
  | nil => simp [ainsert, aerase]
  | cons p rest ih =>
      obtain ⟨k, v⟩ := p
      by_cases hk : k = key
      · simp [ainsert, aerase, hk]
      · simp [ainsert, aerase, hk, ih]

theorem ainsert_ainsert {α β : Type} [DecidableEq α]
    (l : List (α × β)) (key : α) (v1 v2 : β) :
    ainsert (ainsert l key v1) key v2 = ainsert l key v2 := by
  induction l with
  | nil => simp [ainsert]
  | cons p rest ih =>
      obtain ⟨k, v⟩ := p
      by_cases hk : k = key
      · simp [ainsert, hk]
      · simp [ainsert, hk, ih]

/-! ### Stream registry theorems (claims C4, C5) -/

/-- Decides whether an outcome is a raised `ProtocolError`. -/
def raisesProtocolError {α : Type} : Except PyExc α → Bool
  | .error (.protocolError _) => true
  | _ => false

/-- A live dict-view iterator over a mutable mapping. -/
def lazyDictIter : PyIter := { isLazyDictIter := true, items := [] }

/-- Claim C4 counterexample: with iterator streaming enabled, registering
a lazy dict view iterator raises the generic `PyroError`, not a
`ProtocolError`. -/
theorem streamResponse_lazy_dict_not_protocolError :
    streamResponse true [] (.iter lazyDictIter) 1 "sid-1" 0 =
      .error (.pyroError
        "won\x27t serialize or stream lazy dict iterators, convert to list yourself") ∧
    raisesProtocolError (streamResponse true [] (.iter lazyDictIter) 1 "sid-1" 0) =
      false :=
  ⟨rfl, rfl⟩

/-- Claim C4 (amended): with iterator streaming enabled, stream
registration refuses a lazy dict view iterator by raising the generic
`PyroError` (not `ProtocolError`); every other iterator is stored as a new
entry under the fresh UUID string, which is returned as the stream-id. -/
theorem streamResponse_spec (streams : List (String × StreamEntry))
    (client : Nat) (freshId : String) (now : Nat) :
    (∀ it : PyIter, it.isLazyDictIter = true →
        streamResponse true streams (.iter it) client freshId now =
          .error (.pyroError
            "won\x27t serialize or stream lazy dict iterators, convert to list yourself")) ∧
    (∀ it : PyIter, it.isLazyDictIter = false →
        streamResponse true streams (.iter it) client freshId now =
          .ok (.stream (some freshId),
            ainsert streams freshId
              { client := some client, timestamp := now, linger := 0, stream := it })) := by
  constructor
  · intro it hlazy
    simp [streamResponse, hlazy]
  · intro it hlazy
    simp [streamResponse, hlazy]

/-- Claim C4 witness: a non-lazy iterator gets registered under the fresh
stream-id on a concrete empty registry. -/
theorem streamResponse_spec_witness :
    streamResponse true [] (.iter { isLazyDictIter := false, items := [.ok (.int 0)] })
        1 "sid-1" 5 =
      .ok (.stream (some "sid-1"),
        ainsert [] "sid-1"
          { client := some 1, timestamp := 5, linger := 0,
            stream := { isLazyDictIter := false, items := [.ok (.int 0)] } }) :=
  (streamResponse_spec [] 1 "sid-1" 5).2
    { isLazyDictIter := false, items := [.ok (.int 0)] } rfl

/-- Claim C5: `get_next_stream_item` raises
`PyroError("item stream terminated")` when the stream-id is absent; when
the entry's client is null it re-binds the entry to the calling connection
and clears the linger timestamp to zero before advancing; it advances the
iterator, and on `StopIteration` or any other exception it removes the
entry and re-raises. -/
theorem get_next_stream_item_spec (streams : List (String × StreamEntry))
    (caller : Nat) (sid : String) :
    (alookup streams sid = none →
        get_next_stream_item streams caller sid =
          (.error (.pyroError "item stream terminated"), streams)) ∧
    (∀ entry v rest, alookup streams sid = some entry → entry.client = none →
        entry.stream.items = .ok v :: rest →
        get_next_stream_item streams caller sid =
          (.ok v, ainsert streams sid
            { client := some caller, timestamp := entry.timestamp, linger := 0,
              stream := { isLazyDictIter := entry.stream.isLazyDictIter,
                          items := rest } })) ∧
    (∀ entry c v rest, alookup streams sid = some entry → entry.client = some c →
        entry.stream.items = .ok v :: rest →
        get_next_stream_item streams caller sid =
          (.ok v, ainsert streams sid
            { entry with stream := { entry.stream with items := rest } })) ∧
    (∀ entry, alookup streams sid = some entry → entry.stream.items = [] →
        get_next_stream_item streams caller sid =
          (.error .stopIteration, aerase streams sid)) ∧
    (∀ entry e tl, alookup streams sid = some entry →
        entry.stream.items = .error e :: tl →
        get_next_stream_item streams caller sid = (.error e, aerase streams sid)) := by
  refine ⟨?_, ?_, ?_, ?_, ?_⟩
  · intro hl
    simp [get_next_stream_item, hl]
  · intro entry v rest hl hc hitems
    simp [get_next_stream_item, hl, hc, hitems, ainsert_ainsert]
  · intro entry c v rest hl hc hitems
    simp [get_next_stream_item, hl, hc, hitems]
  · intro entry hl hitems
    by_cases hc : entry.client = none
    · simp [get_next_stream_item, hl, hc, hitems, aerase_ainsert]
    · simp [get_next_stream_item, hl, hc, hitems]
  · intro entry e tl hl hitems
    by_cases hc : entry.client = none
    · simp [get_next_stream_item, hl, hc, hitems, aerase_ainsert]
    · simp [get_next_stream_item, hl, hc, hitems]

/-- Claim C5 witness: on a concrete lingering entry (client null, one item
left), the call re-binds to connection 7, clears the linger timestamp and
yields the item. -/
theorem get_next_stream_item_spec_witness :
    get_next_stream_item
        [("s1", { client := none, timestamp := 3, linger := 9,
                  stream := { isLazyDictIter := false, items := [.ok (.int 42)] } })]
        7 "s1" =
      (.ok (.int 42), ainsert
        [("s1", { client := none, timestamp := 3, linger := 9,
                  stream := { isLazyDictIter := false, items := [.ok (.int 42)] } })]
        "s1"
        { client := some 7, timestamp := 3, linger := 0,
          stream := { isLazyDictIter := false, items := [] } }) :=
  (get_next_stream_item_spec
      [("s1", { client := none, timestamp := 3, linger := 9,
                stream := { isLazyDictIter := false, items := [.ok (.int 42)] } })]
      7 "s1").2.1
    { client := none, timestamp := 3, linger := 9,
      stream := { isLazyDictIter := false, items := [.ok (.int 42)] } }
    (.int 42) [] rfl rfl rfl

/-! ## Exposed-member reflection (`get_exposed_members`,
`set_exposed_property_value`) -/

/-- One accessor function of a data descriptor (`fget` / `fset` / `fdel`);
`exposedTag` is its `_pyroExposed` attribute, absent modelled as `none`
(looked up with `getattr(func, "_pyroExposed", default)`). -/
structure Accessor : Type where
  exposedTag : Option Bool
  deriving DecidableEq, Repr

/-- `getattr(f, "_pyroExposed", default)` on an optional accessor
(`None` has no `_pyroExposed` attribute, so the default applies). -/
def exposedTagOf (f : Option Accessor) (default : Bool) : Bool :=
  match f with
  | some a => a.exposedTag.getD default
  | none => default

/-- A data descriptor (a `property`): the three optional accessors. -/
structure PyProperty : Type where
  fget : Option Accessor
  fset : Option Accessor
  fdel : Option Accessor
  deriving DecidableEq, Repr

/-- A class attribute as seen by `dir(obj)` + `getattr(obj, m)`:
a function/method (with its `_pyroExposed` / `_pyroOneway` tags), a data
descriptor, or plain non-descriptor class data. -/
inductive MemberVal : Type
  | func (exposedTag : Option Bool) (onewayTag : Bool)
  | descr (p : PyProperty)
  | plainData
  deriving DecidableEq, Repr

/-- A class: its attribute names in `dir` order with their values. -/
abbrev PyClassDict : Type := List (String × MemberVal)

/-- The three member sets computed by `get_exposed_members`. -/
structure ExposedSets : Type where
  methods : List String
  oneway : List String
  attrs : List String
  deriving DecidableEq, Repr

/-- `get_exposed_members(obj, only_exposed)` (lines 844-897), the cache
and the `as_lists` conversion stripped (the cache stores exactly this
result and `as_lists` only changes the container type, so membership is
unaffected).  Private names are skipped; a function is included iff
`getattr(v, "_pyroExposed", not only_exposed)`, and added to `oneway` when
additionally `_pyroOneway`; a data descriptor is included in `attrs` iff
its first present accessor carries that tag; plain class data is never
exposed. -/
def get_exposed_members : PyClassDict → Bool → ExposedSets
  | [], _ => { methods := [], oneway := [], attrs := [] }
  | (m, v) :: rest, only_exposed =>
      let s := get_exposed_members rest only_exposed
      if is_private_attribute m then s
      else
        match v with
        | .func etag otag =>
            if etag.getD (!only_exposed) then
              { methods := m :: s.methods,
                oneway := if otag then m :: s.oneway else s.oneway,
                attrs := s.attrs }
            else s
        | .descr p =>
            if (p.fget <|> p.fset <|> p.fdel).isSome &&
                exposedTagOf (p.fget <|> p.fset <|> p.fdel) (!only_exposed) then
              { s with attrs := m :: s.attrs }
            else s
        | .plainData => s

theorem get_exposed_members_cons_func (name : String) (etag : Option Bool)
    (otag : Bool) (rest : PyClassDict) (oe : Bool) :
    get_exposed_members ((name, .func etag otag) :: rest) oe =
      (if is_private_attribute name then get_exposed_members rest oe
       else if etag.getD (!oe) then
         { methods := name :: (get_exposed_members rest oe).methods,
           oneway := if otag then name :: (get_exposed_members rest oe).oneway
                     else (get_exposed_members rest oe).oneway,
           attrs := (get_exposed_members rest oe).attrs }
       else get_exposed_members rest oe) := rfl

theorem get_exposed_members_cons_descr (name : String) (p : PyProperty)
    (rest : PyClassDict) (oe : Bool) :
    get_exposed_members ((name, .descr p) :: rest) oe =
      (if is_private_attribute name then get_exposed_members rest oe
       else if (p.fget <|> p.fset <|> p.fdel).isSome &&
           exposedTagOf (p.fget <|> p.fset <|> p.fdel) (!oe) then
         { get_exposed_members rest oe with
           attrs := name :: (get_exposed_members rest oe).attrs }
       else get_exposed_members rest oe) := rfl

theorem get_exposed_members_cons_plain (name : String) (rest : PyClassDict)
    (oe : Bool) :
    get_exposed_members ((name, .plainData) :: rest) oe =
      (if is_private_attribute name then get_exposed_members rest oe
       else get_exposed_members rest oe) := rfl

theorem get_exposed_members_not_private (cls : PyClassDict) (only_exposed : Bool)
    (m : String)
    (hm : m ∈ (get_exposed_members cls only_exposed).methods ∨
          m ∈ (get_exposed_members cls only_exposed).oneway ∨
          m ∈ (get_exposed_members cls only_exposed).attrs) :
    is_private_attribute m = false := by
  induction cls with
  | nil =>
      simp [get_exposed_members] at hm
  | cons p rest ih =>
      obtain ⟨name, v⟩ := p
      by_cases hp : is_private_attribute name
      · cases v with
        | func etag otag =>
            rw [get_exposed_members_cons_func, if_pos hp] at hm
            exact ih hm
        | descr pr =>
            rw [get_exposed_members_cons_descr, if_pos hp] at hm
            exact ih hm
        | plainData =>
            rw [get_exposed_members_cons_plain, if_pos hp] at hm
            exact ih hm
      · cases v with
        | func etag otag =>
            rw [get_exposed_members_cons_func, if_neg hp] at hm
            by_cases he : etag.getD (!only_exposed) = true
            · rw [if_pos he] at hm
              rcases hm with hm | hm | hm
              · rcases List.mem_cons.mp hm with h1 | h1
                · subst h1
                  exact Bool.eq_false_iff.mpr hp
                · exact ih (Or.inl h1)
              · by_cases ho : otag = true
                · rw [if_pos ho] at hm
                  rcases List.mem_cons.mp hm with h1 | h1
                  · subst h1
                    exact Bool.eq_false_iff.mpr hp
                  · exact ih (Or.inr (Or.inl h1))
                · rw [if_neg ho] at hm
                  exact ih (Or.inr (Or.inl hm))
              · exact ih (Or.inr (Or.inr hm))
            · rw [if_neg he] at hm
              exact ih hm
        | descr pr =>
            rw [get_exposed_members_cons_descr, if_neg hp] at hm
            by_cases he : ((pr.fget <|> pr.fset <|> pr.fdel).isSome &&
                exposedTagOf (pr.fget <|> pr.fset <|> pr.fdel) (!only_exposed)) = true
            · rw [if_pos he] at hm
              rcases hm with hm | hm | hm
              · exact ih (Or.inl hm)
              · exact ih (Or.inr (Or.inl hm))
              · rcases List.mem_cons.mp hm with h1 | h1
                · subst h1
                  exact Bool.eq_false_iff.mpr hp
                · exact ih (Or.inr (Or.inr h1))
            · rw [if_neg he] at hm
              exact ih hm
        | plainData =>
            rw [get_exposed_members_cons_plain, if_neg hp] at hm
            exact ih hm

/-- Claim C6: for every class and for both values of `only_exposed`, no
name of the computed `methods`, `oneway` or `attrs` set is private, where
a name is private iff it is in the fixed dunder deny-list, or it starts
with an underscore and is not a double-underscore-delimited name of length
greater than 4. -/
theorem get_exposed_members_no_private (cls : PyClassDict) (only_exposed : Bool)
    (m : String)
    (hm : m ∈ (get_exposed_members cls only_exposed).methods ∨
          m ∈ (get_exposed_members cls only_exposed).oneway ∨
          m ∈ (get_exposed_members cls only_exposed).attrs) :
    (privateDunderMethods.contains m ||
      (strStartsWith m "_" &&
        !(decide (m.length > 4) && strStartsWith m "__" && strEndsWith m "__"))) =
      false := by
  rw [show (privateDunderMethods.contains m ||
      (strStartsWith m "_" &&
        !(decide (m.length > 4) && strStartsWith m "__" && strEndsWith m "__"))) =
      claimPrivate m from rfl, ← is_private_attribute_eq_claimPrivate]
  exact get_exposed_members_not_private cls only_exposed m hm

/-- Claim C6 witness: on a concrete class with an exposed public method,
an oneway method, an exposed property and several private names, each
member of the computed sets is non-private. -/
theorem get_exposed_members_no_private_witness :
    "ping" ∈ (get_exposed_members
        [("ping", .func (some true) false),
         ("fire", .func (some true) true),
         ("__init__", .func (some true) false),
         ("_secret", .func (some true) false),
         ("value", .descr { fget := some { exposedTag := some true },
                            fset := none, fdel := none })] true).methods ∧
    (privateDunderMethods.contains "ping" ||
      (strStartsWith "ping" "_" &&
        !(decide ("ping".length > 4) && strStartsWith "ping" "__" &&
          strEndsWith "ping" "__"))) = false := by
  constructor
  · decide
  · exact get_exposed_members_no_private
      [("ping", .func (some true) false),
       ("fire", .func (some true) true),
       ("__init__", .func (some true) false),
       ("_secret", .func (some true) false),
       ("value", .descr { fget := some { exposedTag := some true },
                          fset := none, fdel := none })] true "ping"
      (Or.inl (by decide))

/-! ## Property access (`get_exposed_property_value`,
`set_exposed_property_value`, dispatch lines 465-470) -/

/-- Result of a successful property write: the setter `v.fset(obj, value)`
of the named property was invoked with the given value (its Python return
value, normally `None`, is what the dispatcher stores in `data`). -/
inductive SetOutcome : Type
  | setterCalled (prop : String) (value : PyVal)
  deriving DecidableEq, Repr

/-- Result of a successful property read: the getter `v.fget(obj)` of the
named property was invoked. -/
inductive GetOutcome : Type
  | getterCalled (prop : String)
  deriving DecidableEq, Repr

/-- `get_exposed_property_value(obj, propname, only_exposed)`
(lines 900-910): the class attribute must be a data descriptor whose
`fget` exists and carries the `_pyroExposed` tag (default
`not only_exposed`), else `AttributeError`. -/
def get_exposed_property_value (cls : PyClassDict) (propname : String)
    (only_exposed : Bool) : Except PyExc GetOutcome :=
  match alookup cls propname with
  | none => .error (.attributeError propname)
  | some (.descr p) =>
      if p.fget.isSome && exposedTagOf p.fget (!only_exposed) then
        .ok (.getterCalled propname)
      else .error (.attributeError
        ("attempt to access unexposed or unknown remote attribute \x27" ++
          propname ++ "\x27"))
  | some _ => .error (.attributeError
      ("attempt to access unexposed or unknown remote attribute \x27" ++
        propname ++ "\x27"))

/-- `set_exposed_property_value(obj, propname, value, only_exposed)`
(lines 913-924): the class attribute must be a data descriptor, `pfunc` is
the first present accessor of `fget or fset or fdel`, and the setter is
invoked iff `fset` exists and `getattr(pfunc, "_pyroExposed",
not only_exposed)` holds; else `AttributeError`.  A missing class
attribute makes the bare `getattr(obj.__class__, propname)` raise
`AttributeError` as well. -/
def set_exposed_property_value (cls : PyClassDict) (propname : String)
    (value : PyVal) (only_exposed : Bool) : Except PyExc SetOutcome :=
  match alookup cls propname with
  | none => .error (.attributeError propname)
  | some (.descr p) =>
      if p.fset.isSome &&
          exposedTagOf (p.fget <|> p.fset <|> p.fdel) (!only_exposed) then
        .ok (.setterCalled propname value)
      else .error (.attributeError
        ("attempt to access unexposed or unknown remote attribute \x27" ++
          propname ++ "\x27"))
  | some _ => .error (.attributeError
      ("attempt to access unexposed or unknown remote attribute \x27" ++
        propname ++ "\x27"))

/-- The `__setattr__` dispatch branch of `Daemon.handleRequest`
(lines 468-470): `data = set_exposed_property_value(obj, vargs[0],
vargs[1])` with the default `only_exposed=True`. -/
def handleSetattr (cls : PyClassDict) (name : String) (value : PyVal) :
    Except PyExc SetOutcome :=
  set_exposed_property_value cls name value true

/-- A property whose getter exists but carries no exposed tag while its
setter exists and is tagged exposed. -/
def getterUntaggedProp : PyProperty :=
  { fget := some { exposedTag := none },
    fset := some { exposedTag := some true },
    fdel := none }

/-- A class holding one property `x` built from `getterUntaggedProp`. -/
def getterUntaggedCls : PyClassDict := [("x", .descr getterUntaggedProp)]

/-- Claim C7 counterexample: a class with a property whose setter exists
and is exposed, yet `__setattr__` dispatch raises `AttributeError`,
because the code tests the exposed tag of the first present accessor
(here the untagged getter), not of the setter. -/
theorem handleSetattr_exposed_setter_rejected :
    getterUntaggedProp.fset = some { exposedTag := some true } ∧
    alookup getterUntaggedCls "x" = some (.descr getterUntaggedProp) ∧
    handleSetattr getterUntaggedCls "x" (.int 5) =
      .error (.attributeError
        "attempt to access unexposed or unknown remote attribute \x27x\x27") :=
  ⟨rfl, rfl, rfl⟩

/-- Claim C7 (amended): on a `__setattr__` dispatch the set succeeds, by
invoking the property's setter, if and only if the class attribute of
that name is a data descriptor whose setter exists and whose *first
present accessor* (`fget or fset or fdel`) carries the exposed tag;
otherwise it fails with `AttributeError`. -/
theorem handleSetattr_spec (cls : PyClassDict) (name : String) (value : PyVal) :
    (handleSetattr cls name value = .ok (.setterCalled name value) ↔
      (∃ p : PyProperty, alookup cls name = some (.descr p) ∧
        p.fset.isSome = true ∧
        exposedTagOf (p.fget <|> p.fset <|> p.fdel) false = true)) ∧
    ((¬ ∃ p : PyProperty, alookup cls name = some (.descr p) ∧
        p.fset.isSome = true ∧
        exposedTagOf (p.fget <|> p.fset <|> p.fdel) false = true) →
      ∃ m, handleSetattr cls name value = .error (.attributeError m)) := by
  constructor
  · constructor
    · intro hok
      cases hl : alookup cls name with
      | none =>
          simp [handleSetattr, set_exposed_property_value, hl] at hok
      | some v =>
          cases v with
          | descr p =>
              simp [handleSetattr, set_exposed_property_value, hl] at hok
              exact ⟨p, rfl, hok.1, hok.2⟩
          | func etag otag =>
              simp [handleSetattr, set_exposed_property_value, hl] at hok
          | plainData =>
              simp [handleSetattr, set_exposed_property_value, hl] at hok
    · rintro ⟨p, hl, hset, htag⟩
      simp [handleSetattr, set_exposed_property_value, hl, hset, htag]
  · intro hno
    cases hl : alookup cls name with
    | none =>
        exact ⟨name, by simp [handleSetattr, set_exposed_property_value, hl]⟩
    | some v =>
        cases v with
        | descr p =>
            by_cases hc : (p.fset.isSome &&
                exposedTagOf (p.fget <|> p.fset <|> p.fdel) (!true)) = true
            · rw [Bool.and_eq_true] at hc
              exact absurd ⟨p, hl, hc.1, hc.2⟩ hno
            · rw [Bool.and_eq_true] at hc
              refine ⟨"attempt to access unexposed or unknown remote attribute \x27" ++
                name ++ "\x27", ?_⟩
              simp only [handleSetattr, set_exposed_property_value, hl]
              rw [if_neg]
              intro hcond
              rw [Bool.and_eq_true] at hcond
              exact hc hcond
        | func etag otag =>
            exact ⟨"attempt to access unexposed or unknown remote attribute \x27" ++
              name ++ "\x27", by simp [handleSetattr, set_exposed_property_value, hl]⟩
        | plainData =>
            exact ⟨"attempt to access unexposed or unknown remote attribute \x27" ++
              name ++ "\x27", by simp [handleSetattr, set_exposed_property_value, hl]⟩

/-- Claim C7 witness: a property whose primary accessor is tagged exposed
and whose setter exists is settable on a concrete class. -/
theorem handleSetattr_spec_witness :
    handleSetattr
        [("x", .descr { fget := some { exposedTag := some true },
                        fset := some { exposedTag := none }, fdel := none })]
        "x" (.int 5) =
      .ok (.setterCalled "x" (.int 5)) :=
  (handleSetattr_spec
      [("x", .descr { fget := some { exposedTag := some true },
                      fset := some { exposedTag := none }, fdel := none })]
      "x" (.int 5)).1.mpr
    ⟨{ fget := some { exposedTag := some true },
       fset := some { exposedTag := none }, fdel := none }, rfl, rfl, rfl⟩

/-! ## Exception replies (`Daemon._sendExceptionResponse`, lines 612-633) -/

/-- An exception value about to be serialized into a reply.  `typeStr` is
the `"%s" % type(exc)` rendering, `strVal` is `str(exc)`, `reprVal` is
`repr(exc)`; `serOk` tells whether `serializer.serializeData(exc)`
succeeds, and `serFailMsg` is `str` of the exception that the failed
serialization raised. -/
structure ExcVal : Type where
  typeStr : String
  strVal : String
  reprVal : String
  serOk : Bool
  serFailMsg : String
  deriving DecidableEq, Repr

/-- The payload of an exception reply: either the serialized original
exception, or the generic replacement `PyroError` with its message (both
carrying the `_pyroTraceback` attached before serialization). -/
inductive ExcPayload : Type
  | serialized (e : ExcVal) (tb : Option String)
  | genericPyroError (msg : String) (tb : Option String)
  deriving DecidableEq, Repr

/-- A `MSG_RESULT` reply produced by `_sendExceptionResponse`. -/
structure ErrReply : Type where
  exceptionFlag : Bool
  itemstreamFlag : Bool
  seq : Nat
  payload : ExcPayload
  deriving DecidableEq, Repr

/-- `Daemon._sendExceptionResponse(connection, seq, serializer_id,
exc_value, tbinfo, flags)` (lines 612-633): serialize the exception; if
that fails, replace it by a generic `PyroError` whose message is built
from `str` of the serialization failure, the original exception's type
and `str` (via the `%s` format) of the original exception, and serialize
that instead; either way the `EXCEPTION` flag is set on the reply. -/
def sendExceptionResponse (seq : Nat) (exc : ExcVal) (tbinfo : Option String)
    (itemstream : Bool) : ErrReply :=
  if exc.serOk then
    { exceptionFlag := true, itemstreamFlag := itemstream, seq := seq,
      payload := .serialized exc tbinfo }
  else
    { exceptionFlag := true, itemstreamFlag := itemstream, seq := seq,
      payload := .genericPyroError
        ("Error serializing exception: " ++ exc.serFailMsg ++
          ". Original exception: " ++ exc.typeStr ++ ": " ++ exc.strVal)
        tbinfo }

/-- An unserializable division-by-zero exception whose `str` and `repr`
renderings differ, as they do for every ordinary Python exception. -/
def unserializableZeroDiv : ExcVal :=
  { typeStr := "<class \x27ZeroDivisionError\x27>",
    strVal := "division by zero",
    reprVal := "ZeroDivisionError(\x27division by zero\x27)",
    serOk := false,
    serFailMsg := "cannot serialize" }

/-- Claim C8 counterexample: the replacement message is built from `str`
of the original exception, and on a concrete exception it differs from
the claim's format, which uses the original exception's `repr`. -/
theorem sendExceptionResponse_uses_str_not_repr :
    (sendExceptionResponse 7 unserializableZeroDiv none false).payload =
      .genericPyroError
        ("Error serializing exception: " ++ unserializableZeroDiv.serFailMsg ++
          ". Original exception: " ++ unserializableZeroDiv.typeStr ++ ": " ++
          unserializableZeroDiv.strVal) none ∧
    ("Error serializing exception: " ++ unserializableZeroDiv.serFailMsg ++
      ". Original exception: " ++ unserializableZeroDiv.typeStr ++ ": " ++
      unserializableZeroDiv.strVal) ≠
    ("Error serializing exception: " ++ unserializableZeroDiv.serFailMsg ++
      ". Original exception: " ++ unserializableZeroDiv.typeStr ++ ": " ++
      unserializableZeroDiv.reprVal) := by
  exact ⟨rfl, by decide⟩

/-- Claim C8 (amended): if serializing an exception reply fails, the
daemon replaces the exception with a generic `PyroError` whose message is
`"Error serializing exception: <inner>. Original exception: <type>:
<str>"` — built from `str` of the original exception, not its `repr` —
and serializes and sends that instead, still with the `EXCEPTION` flag
set. -/
theorem sendExceptionResponse_spec (seq : Nat) (exc : ExcVal)
    (tbinfo : Option String) (itemstream : Bool) (h : exc.serOk = false) :
    sendExceptionResponse seq exc tbinfo itemstream =
      { exceptionFlag := true, itemstreamFlag := itemstream, seq := seq,
        payload := .genericPyroError
          ("Error serializing exception: " ++ exc.serFailMsg ++
            ". Original exception: " ++ exc.typeStr ++ ": " ++ exc.strVal)
          tbinfo } := by
  simp [sendExceptionResponse, h]

/-- Claim C8 witness: the amended statement evaluated on the concrete
unserializable exception. -/
theorem sendExceptionResponse_spec_witness :
    sendExceptionResponse 7 unserializableZeroDiv none false =
      { exceptionFlag := true, itemstreamFlag := false, seq := 7,
        payload := .genericPyroError
          ("Error serializing exception: " ++ unserializableZeroDiv.serFailMsg ++
            ". Original exception: " ++ unserializableZeroDiv.typeStr ++ ": " ++
            unserializableZeroDiv.strVal) none } :=
  sendExceptionResponse_spec 7 unserializableZeroDiv none false rfl

/-! ## Instance management (`Daemon._getInstance`, lines 571-610) -/

/-- A concrete Python instance: `handle` names the identity of the object
(two creations yield different handles), `clsName` its class, and
`truthy` its truth value under `bool(...)`. -/
structure Inst : Type where
  handle : Nat
  clsName : String
  truthy : Bool
  deriving DecidableEq, Repr

/-- A registered class: its name (class identity; distinct classes have
distinct names), its `_pyroInstancing` mode, the optional instance
creator, and the truth value of instances made by the plain constructor
`clazz()`. -/
structure RegClass : Type where
  name : String
  instanceMode : String
  creator : Option (Nat → Inst)
  newInstTruthy : Bool

/-- The instance stores touched by `_getInstance`:
`Daemon._pyroInstances` (single mode) and `conn.pyroInstances` (session
mode), both keyed by the class. -/
structure InstanceState : Type where
  pyroInstances : List (String × Inst)
  connInstances : List (String × Inst)
  deriving DecidableEq, Repr

/-- The inner `createInstance(clazz, creator)` of `_getInstance`:
run the creator if present and type-check its result
(`TypeError` on mismatch), else call the plain constructor.  `fresh` is
the identity of the newly constructed object. -/
def createInstance (clazz : RegClass) (fresh : Nat) : Except PyExc Inst :=
  match clazz.creator with
  | some cr =>
      let obj := cr fresh
      if obj.clsName = clazz.name then .ok obj
      else .error (.typeError "instance creator returned object of different type")
  | none => .ok { handle := fresh, clsName := clazz.name, truthy := clazz.newInstTruthy }

/-- `Daemon._getInstance(clazz, conn)` (lines 571-610).  In `single` and
`session` mode the stored instance is reused only when `not instance` is
false, i.e. when one is stored *and* it is truthy; otherwise a new one is
created and stored.  `percall` always creates a fresh instance. -/
def getInstance (st : InstanceState) (clazz : RegClass) (fresh : Nat) :
    Except PyExc (Inst × InstanceState) :=
  if clazz.instanceMode = "single" then
    match alookup st.pyroInstances clazz.name with
    | some inst =>
        if inst.truthy then .ok (inst, st)
        else
          match createInstance clazz fresh with
          | .error e => .error e
          | .ok i => .ok (i, { st with pyroInstances := ainsert st.pyroInstances clazz.name i })
    | none =>
        match createInstance clazz fresh with
        | .error e => .error e
        | .ok i => .ok (i, { st with pyroInstances := ainsert st.pyroInstances clazz.name i })
  else if clazz.instanceMode = "session" then
    match alookup st.connInstances clazz.name with
    | some inst =>
        if inst.truthy then .ok (inst, st)
        else
          match createInstance clazz fresh with
          | .error e => .error e
          | .ok i => .ok (i, { st with connInstances := ainsert st.connInstances clazz.name i })
    | none =>
        match createInstance clazz fresh with
        | .error e => .error e
        | .ok i => .ok (i, { st with connInstances := ainsert st.connInstances clazz.name i })
  else if clazz.instanceMode = "percall" then
    match createInstance clazz fresh with
    | .error e => .error e
    | .ok i => .ok (i, st)
  else .error (.daemonError "invalid instancemode in registered class")

/-- A `single`-mode class whose instances are falsy (e.g. a class with
`__bool__` returning `False`, or an empty container subclass). -/
def falsySingleClass : RegClass :=
  { name := "C", instanceMode := "single", creator := none, newInstTruthy := false }

/-- Claim C9 failing input: for a `single`-mode class whose instances are
falsy, the second dispatch does not return the stored instance — the
`if not instance` test misfires and a second, distinct instance is
created and stored, contradicting the one-instance-per-daemon-lifetime
claim (and the code's own comment "just exactly one per daemon"). -/
theorem getInstance_falsy_single_recreated :
    getInstance { pyroInstances := [], connInstances := [] } falsySingleClass 1 =
      .ok ({ handle := 1, clsName := "C", truthy := false },
        { pyroInstances := [("C", { handle := 1, clsName := "C", truthy := false })],
          connInstances := [] }) ∧
    getInstance
        { pyroInstances := [("C", { handle := 1, clsName := "C", truthy := false })],
          connInstances := [] } falsySingleClass 2 =
      .ok ({ handle := 2, clsName := "C", truthy := false },
        { pyroInstances := [("C", { handle := 2, clsName := "C", truthy := false })],
          connInstances := [] }) ∧
    ({ handle := 1, clsName := "C", truthy := false } : Inst) ≠
      { handle := 2, clsName := "C", truthy := false } :=
  ⟨rfl, rfl, by decide⟩

/-! ## Batch dispatch (`Daemon.handleRequest`, lines 447-462, 492-504) -/

/-- A remotely callable method of the target object: positional and
keyword arguments to a result or a raised exception. -/
abbrev Method : Type := List PyVal → List (String × PyVal) → Except PyExc PyVal

/-- The target object as seen by method lookup. -/
abbrev ObjTable : Type := List (String × Method)

/-- Modelled from the spec: `util.getAttribute(obj, method)` (the `util`
module is not under `src/`) resolves the method name against the exposed
member set; unknown names fail with an attribute error. -/
def getAttribute (obj : ObjTable) (name : String) : Except PyExc Method :=
  match alookup obj name with
  | some f => .ok f
  | none => .error (.attributeError name)

/-- One `(method-name, vargs, kwargs)` tuple of a batched call. -/
structure BatchCall : Type where
  method : String
  vargs : List PyVal
  kwargs : List (String × PyVal)
  deriving Repr

/-- One element of the batch result list: a plain result, or the
exception wrapper (`futures._ExceptionWrapper` is outside `src/`;
modelled from the spec as a wrapper holding the raised exception). -/
inductive BatchItem : Type
  | value (v : PyVal)
  | excWrapper (e : PyExc)
  deriving DecidableEq, Repr

/-- The batch loop of `Daemon.handleRequest` (lines 447-462): walk the
tuples in order; `util.getAttribute` failure escapes as the `Except`
error (handled by the outer exception handler); a method call failure
appends the exception wrapper and breaks; a success appends the result
and continues.  The second component is the list of method names actually
invoked, in order. -/
def runBatch (obj : ObjTable) :
    List BatchCall → Except PyExc (List BatchItem) × List String
  | [] => (.ok [], [])
  | c :: rest =>
      match getAttribute obj c.method with
      | .error e => (.error e, [])
      | .ok f =>
          match f c.vargs c.kwargs with
          | .error e => (.ok [.excWrapper e], [c.method])
          | .ok v =>
              match runBatch obj rest with
              | (.ok items, log) => (.ok (.value v :: items), c.method :: log)
              | (.error e, log) => (.error e, c.method :: log)

/-- Flags of a `MSG_RESULT` reply (`FLAGS_BATCH`, `FLAGS_EXCEPTION`,
`FLAGS_ITEMSTREAMRESULT`; compression is not modelled since the
serializer is taken as the identity). -/
structure ReplyFlags : Type where
  batch : Bool
  exception : Bool
  itemstream : Bool
  deriving DecidableEq, Repr

/-- The single reply `handleRequest` sends for a non-oneway invoke. -/
inductive Reply : Type
  | result (flags : ReplyFlags) (payload : List BatchItem)
  | excResult (flags : ReplyFlags) (e : PyExc)
  deriving DecidableEq, Repr

/-- The `FLAGS_BATCH` branch of `Daemon.handleRequest` for a non-oneway
`INVOKE` (lines 447-462 plus the reply construction of lines 495-504):
run the batch loop; on completion exactly one `MSG_RESULT` is sent whose
flags carry `FLAGS_BATCH` (`wasBatched`) and whose payload is the
collected list; an escaped exception is serialized by the outer handler
as an exception reply without the batch flag (lines 505-518). -/
def handleBatchRequest (obj : ObjTable) (calls : List BatchCall) :
    Reply × List String :=
  match runBatch obj calls with
  | (.ok items, log) =>
      (.result { batch := true, exception := false, itemstream := false } items, log)
  | (.error e, log) =>
      (.excResult { batch := false, exception := true, itemstream := false } e, log)

/-- Resolution plus invocation of one batch tuple, used to phrase the
hypothesis that a tuple succeeds. -/
def callMethod (obj : ObjTable) (c : BatchCall) : Except PyExc PyVal :=
  match getAttribute obj c.method with
  | .error e => .error e
  | .ok f => f c.vargs c.kwargs

theorem runBatch_append_fail (obj : ObjTable) (bad : BatchCall)
    (post : List BatchCall) (f : Method) (e : PyExc) (res : BatchCall → PyVal)
    (pre : List BatchCall) (hpre : ∀ c ∈ pre, callMethod obj c = .ok (res c))
    (hf : getAttribute obj bad.method = .ok f)
    (he : f bad.vargs bad.kwargs = .error e) :
    runBatch obj (pre ++ bad :: post) =
      (.ok (pre.map (fun c => .value (res c)) ++ [.excWrapper e]),
       pre.map (fun c => c.method) ++ [bad.method]) := by
  induction pre with
  | nil => simp [runBatch, hf, he]
  | cons c pre ih =>
      have hc := hpre c (List.mem_cons_self c pre)
      cases hg : getAttribute obj c.method with
      | error e2 =>
          rw [callMethod, hg] at hc
          exact absurd hc (by simp)
      | ok g =>
          have hgv : g c.vargs c.kwargs = .ok (res c) := by
            rw [callMethod, hg] at hc
            exact hc
          have ih' := ih (fun d hd => hpre d (List.mem_cons_of_mem c hd))
          simp only [List.cons_append, runBatch, hg, hgv, List.append_eq]
          rw [ih']
          simp

/-- Claim C1: on a batched invoke the tuples are processed strictly in
order; each successful result is appended; at the first tuple whose
method raises, the exception wrapper is appended and processing stops, so
no later tuple is ever invoked (the invocation log ends at the failing
tuple); exactly one `MSG_RESULT` reply is produced, carrying the `BATCH`
flag and the truncated result list. -/
theorem handleRequest_batch_short_circuit (obj : ObjTable)
    (pre : List BatchCall) (bad : BatchCall) (post : List BatchCall)
    (f : Method) (e : PyExc) (res : BatchCall → PyVal)
    (hpre : ∀ c ∈ pre, callMethod obj c = .ok (res c))
    (hf : getAttribute obj bad.method = .ok f)
    (he : f bad.vargs bad.kwargs = .error e) :
    handleBatchRequest obj (pre ++ bad :: post) =
      (.result { batch := true, exception := false, itemstream := false }
         (pre.map (fun c => .value (res c)) ++ [.excWrapper e]),
       pre.map (fun c => c.method) ++ [bad.method]) := by
  simp [handleBatchRequest,
    runBatch_append_fail obj bad post f e res pre hpre hf he]

/-- Addition method of the witness object. -/
def addMethod : Method := fun vargs _ =>
  match vargs with
  | [.int a, .int b] => .ok (.int (a + b))
  | _ => .error (.typeError "add expects two ints")

/-- Division method of the witness object; division by zero raises. -/
def divMethod : Method := fun vargs _ =>
  match vargs with
  | [.int a, .int b] =>
      if b = 0 then .error (.zeroDivisionError "division by zero")
      else .ok (.int (a / b))
  | _ => .error (.typeError "div expects two ints")

/-- The witness object exposing `add` and `div`. -/
def calcObj : ObjTable := [("add", addMethod), ("div", divMethod)]

/-- Claim C1 witness: scenario S4 — the batch
`[(add,[1,2]), (div,[1,0]), (add,[3,4])]` yields one `RESULT(BATCH)`
reply with payload `[3, wrapper(div-by-zero)]`, and only `add` then `div`
were invoked: the third tuple is skipped. -/
theorem handleRequest_batch_short_circuit_witness :
    handleBatchRequest calcObj
        [{ method := "add", vargs := [.int 1, .int 2], kwargs := [] },
         { method := "div", vargs := [.int 1, .int 0], kwargs := [] },
         { method := "add", vargs := [.int 3, .int 4], kwargs := [] }] =
      (.result { batch := true, exception := false, itemstream := false }
         [.value (.int 3), .excWrapper (.zeroDivisionError "division by zero")],
       ["add", "div"]) := by
  have h := handleRequest_batch_short_circuit calcObj
      [{ method := "add", vargs := [.int 1, .int 2], kwargs := [] }]
      { method := "div", vargs := [.int 1, .int 0], kwargs := [] }
      [{ method := "add", vargs := [.int 3, .int 4], kwargs := [] }]
      divMethod (.zeroDivisionError "division by zero")
      (fun _ => .int 3)
      (by
        intro c hc
        rw [List.mem_singleton] at hc
        subst hc
        rfl)
      rfl rfl
  simpa using h

end Pyro5
